import Mathlib

/-!
Shallow embedding of the vtas compiler-and-runtime core (bytecode generator
state and stack virtual machine), translated from the Rust sources in
crates/bytecode and crates/vm, together with theorems settling the frozen
claims about it.

Modelling conventions:
- Rust Vec is a Lean List in the same order (index 0 is the bottom of a stack;
  push appends at the end, pop removes the last element).
- usize is Nat, isize is Int.
- Numeric runtime values carry an Int payload; no claim below performs
  arithmetic on numbers, they are opaque payloads here.
- A Rust panic (expect, unimplemented, todo, out-of-range indexing) is the
  VmFault.crash outcome; a structured RuntimeError is VmFault.err with its
  cause tag. Fallible operations return the Except outcome together with the
  state of the machine at the moment of return, mirroring that Rust mutates
  self in place before an early Err return.
-/

namespace Vtas

/-- MemoryAddress from crates/bytecode: Local(index), Upvalue{index, is_ref},
Global(name). -/
inductive MemoryAddress where
  | Local : Nat → MemoryAddress
  | Upvalue : Nat → Bool → MemoryAddress
  | Global : String → MemoryAddress
deriving DecidableEq, Repr

/-- The opcodes dispatched by the VM tick in crates/vm/src/lib.rs that the
claims exercise: Constant(index), Jif(distance), Jp(distance),
Break(distance), Pop(amount), Block(amount), Get, Asg, Return, Null. -/
inductive Opcode where
  | Constant : Nat → Opcode
  | Jif : Int → Opcode
  | Jp : Int → Opcode
  | Break : Int → Opcode
  | Pop : Nat → Opcode
  | Block : Nat → Opcode
  | Get : Opcode
  | Asg : Opcode
  | Return : Opcode
  | Null : Opcode
deriving DecidableEq, Repr

/-- Constant pool entry: an embeddable literal or a pre-resolved memory
address. -/
inductive Constant where
  | Number : Int → Constant
  | Bool : Bool → Constant
  | Text : String → Constant
  | MemoryAddress : MemoryAddress → Constant
deriving DecidableEq, Repr

/-- Chunk: ordered instruction sequence plus ordered constant pool. -/
structure Chunk where
  opcodes : List Opcode
  constants : List Constant
deriving DecidableEq, Repr

/-- Function from crates/bytecode/src/callables.rs: name, arity, one chunk. -/
structure Function where
  name : String
  arity : Nat
  chunk : Chunk
deriving DecidableEq, Repr

/-- Tagged runtime value; Callable holds a Function, MemoryAddress is an
address pushed through the constant pool and consumed by Get and Asg. -/
inductive RuntimeValue where
  | Number : Int → RuntimeValue
  | Bool : Bool → RuntimeValue
  | Null : RuntimeValue
  | Text : String → RuntimeValue
  | Callable : Function → RuntimeValue
  | MemoryAddress : MemoryAddress → RuntimeValue
deriving DecidableEq, Repr

/-- Cause tags of structured runtime errors. StackOverflow is the tag used by
move_pointer and get_local_variable in the sources; the tags for popping an
empty operand stack and for operand type mismatches live in files missing
from the snapshot (stack.rs, eq_ord.rs) and are modelled from the spec. -/
inductive RuntimeErrorCause where
  | StackOverflow : RuntimeErrorCause
  | PoppedFromEmptyStack : RuntimeErrorCause
  | TypeMismatch : RuntimeErrorCause
deriving DecidableEq, Repr

/-- Outcome of a fallible VM operation: a structured runtime error carrying
its cause, or a Rust panic (expect, unimplemented, todo, indexing). -/
inductive VmFault where
  | err : RuntimeErrorCause → VmFault
  | crash : VmFault
deriving DecidableEq, Repr

/-- TickOutcome from crates/vm/src/lib.rs. -/
inductive TickOutcome where
  | FinishProgram : TickOutcome
  | BreakFromLoop : TickOutcome
  | ContinueExecution : TickOutcome
deriving DecidableEq, Repr

/-- CallFrame: stack base, function name, the chunk executed, return pointer. -/
structure CallFrame where
  stack_start : Nat
  name : String
  chunk : Chunk
  return_ip : Nat
deriving DecidableEq, Repr

/-- VM state: shared operand stack, call-frame stack, instruction pointer.
The debug sink is observational only and is not modelled. -/
structure VMState where
  operands : List RuntimeValue
  call_stack : List CallFrame
  ip : Nat
deriving DecidableEq, Repr

/-- Result of a fallible operation together with the machine state at the
moment of return (Rust mutates self in place before an early Err return). -/
abbrev VmRes (α : Type) := Except VmFault α × VMState

/-- Sequencing of fallible VM operations: an error short-circuits but keeps
the state reached so far. -/
def vbind {α β : Type} (r : VmRes α) (f : α → VMState → VmRes β) : VmRes β :=
  match r with
  | (Except.ok a, s) => f a s
  | (Except.error e, s) => (Except.error e, s)

/-- The externally supplied global table (gravitas_std STD_FUNCTIONS):
a name-to-value mapping. -/
abbrev StdTable := String → Option RuntimeValue

def Chunk.opcodes_len (c : Chunk) : Nat := c.opcodes.length

def VMState.push_operand (s : VMState) (v : RuntimeValue) : VMState :=
  { s with operands := s.operands ++ [v] }

/-- Modelled from the spec: pop_operand lives in the missing crates/vm/src/stack.rs;
it pops the top operand, and popping from an empty operand stack is a typed
runtime error. -/
def VMState.pop_operand (s : VMState) : VmRes RuntimeValue :=
  match s.operands.getLast? with
  | some v => (Except.ok v, { s with operands := s.operands.dropLast })
  | none => (Except.error (VmFault.err RuntimeErrorCause.PoppedFromEmptyStack), s)

/-- current_frame from crates/vm/src/lib.rs: the top call frame; expect
panics when the call stack is empty. -/
def VMState.current_frame (s : VMState) : Except VmFault CallFrame :=
  match s.call_stack.getLast? with
  | some f => Except.ok f
  | none => Except.error VmFault.crash

/-- move_pointer from crates/vm/src/lib.rs: a positive distance adds to the
pointer; otherwise checked subtraction of the negation, with a StackOverflow
runtime error when the pointer would move before position 0 (the pointer is
left unchanged in that case). -/
def VMState.move_pointer (s : VMState) (distance : Int) : VmRes Unit :=
  if 0 < distance then
    (Except.ok (), { s with ip := s.ip + distance.toNat })
  else
    if (-distance).toNat ≤ s.ip then
      (Except.ok (), { s with ip := s.ip - (-distance).toNat })
    else
      (Except.error (VmFault.err RuntimeErrorCause.StackOverflow), s)

/-- op_pop from crates/vm/src/memory.rs: pop amount operands one at a time,
propagating the first failure. -/
def VMState.op_pop (s : VMState) : Nat → VmRes Unit
  | 0 => (Except.ok (), s)
  | amount + 1 =>
    vbind s.pop_operand (fun _ s1 => s1.op_pop amount)

/-- Modelled from the spec: to_bool lives in the missing crates/vm/src
runtime value files; truthiness is defined only for Bool values and any
other variant is a type-mismatch runtime error. -/
def to_bool (v : RuntimeValue) (s : VMState) : VmRes Bool :=
  match v with
  | RuntimeValue.Bool b => (Except.ok b, s)
  | _ => (Except.error (VmFault.err RuntimeErrorCause.TypeMismatch), s)

/-- Modelled from the spec: pop_address lives in the missing
crates/vm/src/stack.rs; it pops an operand previously pushed as a constant
and expects it to be a MemoryAddress. -/
def VMState.pop_address (s : VMState) : VmRes MemoryAddress :=
  vbind s.pop_operand (fun v s1 =>
    match v with
    | RuntimeValue.MemoryAddress a => (Except.ok a, s1)
    | _ => (Except.error (VmFault.err RuntimeErrorCause.TypeMismatch), s1))

/-- Modelled from the spec: op_constant lives in the missing
crates/vm/src/basic_expr.rs; a Constant opcode references a pool entry of the
current chunk and pushes it (a literal becomes the matching runtime value). -/
def Constant.toRuntime : Constant → RuntimeValue
  | Constant.Number n => RuntimeValue.Number n
  | Constant.Bool b => RuntimeValue.Bool b
  | Constant.Text t => RuntimeValue.Text t
  | Constant.MemoryAddress a => RuntimeValue.MemoryAddress a

/-- Modelled from the spec: op_constant pushes the referenced pool entry of
the current frame; an out-of-range constant index does not survive
generation, so it is a panic at execution. -/
def VMState.op_constant (s : VMState) (index : Nat) : VmRes Unit :=
  match s.current_frame with
  | Except.error e => (Except.error e, s)
  | Except.ok frame =>
    match frame.chunk.constants.get? index with
    | some c => (Except.ok (), s.push_operand c.toRuntime)
    | none => (Except.error VmFault.crash, s)

/-- get_local_variable from crates/vm/src/memory.rs: index the operand stack
at stack_start plus the local address; a missing slot is a StackOverflow
runtime error, otherwise the value is cloned and pushed. -/
def VMState.get_local_variable (s : VMState) (local_address : Nat) : VmRes Unit :=
  match s.current_frame with
  | Except.error e => (Except.error e, s)
  | Except.ok frame =>
    match s.operands.get? (frame.stack_start + local_address) with
    | some v => (Except.ok (), s.push_operand v)
    | none => (Except.error (VmFault.err RuntimeErrorCause.StackOverflow), s)

/-- get_global_variable from crates/vm/src/memory.rs: look the name up in the
externally supplied STD_FUNCTIONS table and push the callable; expect panics
when the global is not defined. -/
def VMState.get_global_variable (s : VMState) (std : StdTable) (name : String) : VmRes Unit :=
  match std name with
  | some v => (Except.ok (), s.push_operand v)
  | none => (Except.error VmFault.crash, s)

/-- op_get from crates/vm/src/memory.rs: pop an address; Local resolves
through get_local_variable, Global through get_global_variable, and the
Upvalue form hits unimplemented (a panic). -/
def VMState.op_get (s : VMState) (std : StdTable) : VmRes Unit :=
  vbind s.pop_address (fun address s1 =>
    match address with
    | MemoryAddress.Local stack_address => s1.get_local_variable stack_address
    | MemoryAddress.Global name => s1.get_global_variable std name
    | MemoryAddress.Upvalue _ _ => (Except.error VmFault.crash, s1))

/-- assign_value from crates/vm/src/memory.rs: overwrite the operand slot at
stack_start plus the local address (indexing out of range is a panic); the
Upvalue and Global forms hit unimplemented (a panic). -/
def VMState.assign_value (s : VMState) (value : RuntimeValue) (address : MemoryAddress) : VmRes Unit :=
  match s.current_frame with
  | Except.error e => (Except.error e, s)
  | Except.ok frame =>
    match address with
    | MemoryAddress.Local local_address =>
      if frame.stack_start + local_address < s.operands.length then
        (Except.ok (), { s with operands := s.operands.set (frame.stack_start + local_address) value })
      else
        (Except.error VmFault.crash, s)
    | _ => (Except.error VmFault.crash, s)

/-- op_asg from crates/vm/src/memory.rs: pop the value to assign, pop the
address, then assign_value. -/
def VMState.op_asg (s : VMState) : VmRes Unit :=
  vbind s.pop_operand (fun to_assign s1 =>
    vbind s1.pop_address (fun address s2 =>
      s2.assign_value to_assign address))

/-- Modelled from the spec: remove_call_frame lives in the missing
crates/vm/src/call.rs; Return destroys the current frame, and the call stack
is never empty once execution starts. -/
def VMState.remove_call_frame (s : VMState) : VmRes Unit :=
  match s.call_stack.getLast? with
  | some _ => (Except.ok (), { s with call_stack := s.call_stack.dropLast })
  | none => (Except.error VmFault.crash, s)

/-- After a non-jump opcode executes, the pointer advances by exactly 1. -/
def thenAdvance (r : VmRes Unit) : VmRes TickOutcome :=
  vbind r (fun _ s =>
    vbind (s.move_pointer 1) (fun _ s1 => (Except.ok TickOutcome.ContinueExecution, s1)))

/-- One dispatch step for an already fetched opcode, following the match in
tick (crates/vm/src/lib.rs). Every arm except Jp falls through to the
move_pointer(1) at the end of tick; Jp returns early so the pointer is not
incremented after the jump. -/
def VMState.dispatch (s : VMState) (std : StdTable) : Opcode → VmRes TickOutcome
  | Opcode.Constant index => thenAdvance (s.op_constant index)
  | Opcode.Jif distance =>
    thenAdvance
      (vbind s.pop_operand (fun condition s1 =>
        vbind (to_bool condition s1) (fun b s2 =>
          if b then (Except.ok (), s2) else s2.move_pointer distance)))
  | Opcode.Jp distance =>
    vbind (s.move_pointer distance) (fun _ s1 =>
      (Except.ok TickOutcome.ContinueExecution, s1))
  | Opcode.Break distance => thenAdvance (s.move_pointer distance)
  | Opcode.Pop amount => thenAdvance (s.op_pop amount)
  | Opcode.Block amount =>
    thenAdvance
      (vbind s.pop_operand (fun block_result s1 =>
        vbind (s1.op_pop amount) (fun _ s2 =>
          (Except.ok (), s2.push_operand block_result))))
  | Opcode.Get => thenAdvance (s.op_get std)
  | Opcode.Asg => thenAdvance s.op_asg
  | Opcode.Return =>
    thenAdvance
      (vbind s.pop_operand (fun result s1 =>
        vbind s1.remove_call_frame (fun _ s2 =>
          (Except.ok (), s2.push_operand result))))
  | Opcode.Null => thenAdvance (Except.ok (), s.push_operand RuntimeValue.Null)

/-- tick from crates/vm/src/lib.rs: when the pointer is past the current
chunk the program finishes; otherwise the opcode at the pointer is read
(indexing, so out of range is a panic) and dispatched. -/
def VMState.tick (s : VMState) (std : StdTable) : VmRes TickOutcome :=
  match s.current_frame with
  | Except.error e => (Except.error e, s)
  | Except.ok frame =>
    if s.ip < frame.chunk.opcodes_len then
      match frame.chunk.opcodes.get? s.ip with
      | some next => s.dispatch std next
      | none => (Except.error VmFault.crash, s)
    else
      (Except.ok TickOutcome.FinishProgram, s)

/-- The run loop of VM::run (crates/vm/src/lib.rs), with explicit fuel so the
model is executable: tick until FinishProgram, propagating the first fault
immediately. None is fuel exhaustion, an artifact of the embedding. -/
def runLoop (std : StdTable) : Nat → VMState → Option (VmRes Unit)
  | 0, _ => none
  | fuel + 1, s =>
    match s.tick std with
    | (Except.ok TickOutcome.FinishProgram, s1) => some (Except.ok (), s1)
    | (Except.ok _, s1) => runLoop std fuel s1
    | (Except.error e, s1) => some (Except.error e, s1)

/-- VM::run from crates/vm/src/lib.rs: install the initial call frame for the
top-level function, run the loop, then pop the terminal value; a fault from
any tick aborts the run and is the outcome. -/
def VM_run (std : StdTable) (fuel : Nat) (main_fn : Function) : Option (Except VmFault RuntimeValue) :=
  let initial_frame : CallFrame :=
    { stack_start := 0, name := main_fn.name, chunk := main_fn.chunk, return_ip := 0 }
  let s0 : VMState := { operands := [], call_stack := [initial_frame], ip := 0 }
  (runLoop std fuel s0).map (fun r =>
    match r with
    | (Except.ok _, s1) => (s1.pop_operand).1
    | (Except.error e, _) => Except.error e)

/-- The public entry point run (crates/vm/src/lib.rs line 69): it unwraps the
result of VM::run with expect, so an Err outcome is a panic (none here)
rather than a returned error; the outer Option is fuel exhaustion. -/
def pub_run (std : StdTable) (fuel : Nat) (bytecode : Function) : Option (Option RuntimeValue) :=
  (VM_run std fuel bytecode).map (fun r =>
    match r with
    | Except.ok v => some v
    | Except.error _ => none)

/-! ## Generator state and the scope resolver (crates/bytecode/src/state.rs) -/

/-- ScopeType from crates/bytecode/src/state.rs. -/
inductive ScopeType where
  | Function : ScopeType
  | Block : ScopeType
  | Global : ScopeType
  | Class : ScopeType
deriving DecidableEq, Repr

/-- Variable as built by declare_var: name, lexical depth, resolved stack
index, optional upvalue index. -/
structure Variable where
  name : String
  depth : Nat
  index : Nat
  upvalue_index : Option Nat
deriving DecidableEq, Repr

/-- Upvalue with the fields used by state.rs: upvalue_index, is_local,
is_ref, local_index, name. -/
structure Upvalue where
  upvalue_index : Nat
  is_local : Bool
  is_ref : Bool
  local_index : Nat
  name : String
deriving DecidableEq, Repr

/-- Patch: the index into the chunk of an emitted placeholder jump. -/
structure Patch where
  index : Nat
deriving DecidableEq, Repr

/-- Scope from crates/bytecode/src/state.rs; the Rust HashSet of patches is a
Lean list with set-like insertion. -/
structure Scope where
  scope_type : ScopeType
  -- the source field is named variables, a reserved word in Lean
  vars : List Variable
  returned : Bool
  patches : List Patch
  starting_index : Nat
  upvalues : List Upvalue
deriving DecidableEq, Repr

def Scope.new (scope_type : ScopeType) (starting_index : Nat) : Scope :=
  { scope_type := scope_type, vars := [], returned := false,
    patches := [], starting_index := starting_index, upvalues := [] }

/-- make_enclosed_upvalue from state.rs: builds an upvalue referencing the
given upvalue_index (is_ref true, local_index 0), pushes it onto the scope
and returns it. -/
def Scope.make_enclosed_upvalue (scope : Scope) (upvalue_index : Nat) (is_local : Bool)
    (name : String) : Upvalue × Scope :=
  let upvalue : Upvalue :=
    { upvalue_index := upvalue_index, is_local := is_local, is_ref := true,
      local_index := 0, name := name }
  (upvalue, { scope with upvalues := scope.upvalues ++ [upvalue] })

/-- close_variable from state.rs: reads the variable at the given position
(callers pass an index that search_var produced, so the unwrap cannot fire;
an out-of-range index falls back to a dummy variable here), derives the
upvalue_index from the length of the scope upvalue list and yields the first,
local link of the chain without pushing it anywhere. -/
def Scope.close_variable (scope : Scope) (index : Nat) : Upvalue :=
  let var := scope.vars.getD index { name := "", depth := 0, index := 0, upvalue_index := none }
  let upvalues_len := scope.upvalues.length
  let upvalue_index := if upvalues_len = 0 then 0 else upvalues_len - 1
  { local_index := var.index, upvalue_index := upvalue_index, is_local := true,
    is_ref := false, name := var.name }

/-- search_var from state.rs: first variable of the scope with the given
name, together with its position in the variable list. -/
def search_var (scope : Scope) (name : String) : Option (Variable × Nat) :=
  (scope.vars.enum.find? (fun p => p.2.name = name)).map (fun p => (p.2, p.1))

/-- GeneratorState from state.rs: the scope stack (the classes map plays no
part in any operation modelled here and is omitted). -/
structure GeneratorState where
  scopes : List Scope
deriving DecidableEq, Repr

/-- GeneratorState::default(): an empty scope stack (this, not new(), is what
BytecodeGenerator::new installs). -/
def GeneratorState.default : GeneratorState := { scopes := [] }

/-- GeneratorState::new(): starts with the global scope. -/
def GeneratorState.new : GeneratorState := { scopes := [Scope.new ScopeType.Global 0] }

/-- current_scope: the innermost scope; accessing it above the global one is
a panic, hence Option. -/
def GeneratorState.current_scope (st : GeneratorState) : Option Scope :=
  st.scopes.getLast?

/-- depth from state.rs: the count of non-Block scopes minus one; the usize
subtraction panics when there is no non-Block scope, hence Option. -/
def GeneratorState.depth (st : GeneratorState) : Option Nat :=
  let c := (st.scopes.filter (fun s => decide (s.scope_type ≠ ScopeType.Block))).length
  if c = 0 then none else some (c - 1)

/-- declare_var from state.rs: the stack offset is 0 inside a Function scope,
otherwise the sum of the variable counts of the enclosing scopes, innermost
first, for as long as they are Block or Global; the new variable is appended
to the current scope with index equal to that offset plus the length of the
current variable list. -/
def GeneratorState.declare_var (st : GeneratorState) (name : String) : Option GeneratorState :=
  match st.depth, st.current_scope with
  | some depth, some cur =>
    let stack_offset : Nat :=
      if cur.scope_type = ScopeType.Function then 0
      else
        (((st.scopes.reverse.drop 1).takeWhile
            (fun s => decide (s.scope_type = ScopeType.Block ∨ s.scope_type = ScopeType.Global))).map
          (fun s => s.vars.length)).sum
    let newVar : Variable :=
      { name := name, depth := depth, index := stack_offset + cur.vars.length,
        upvalue_index := none }
    some { st with
      scopes := st.scopes.dropLast ++ [{ cur with vars := cur.vars ++ [newVar] }] }
  | _, _ => none

/-- Fallback scope for positional access; every index used below comes from
List.range over the scope list, so the fallback is never reached. -/
def getScope (scopes : List Scope) (i : Nat) : Scope :=
  scopes.getD i (Scope.new ScopeType.Global 0)

/-- The indices of the scope stack in reverse (innermost first), restricted
to non-Block scopes: the iteration order of scopes.iter().rev().filter in
search_upvalue_var. -/
def revNonBlockIdxs (scopes : List Scope) : List Nat :=
  ((List.range scopes.length).reverse).filter
    (fun i => decide ((getScope scopes i).scope_type ≠ ScopeType.Block))

/-- The walk of the first loop of search_upvalue_var: visit the candidate
scope indices in order, stopping at (and including) the first scope that
declares the name; yields the visited indices and the position of the
variable in the declaring scope. -/
def findDeclaring (scopes : List Scope) (name : String) : List Nat → Option (List Nat × Nat)
  | [] => none
  | i :: rest =>
    match search_var (getScope scopes i) name with
    | some (_, vidx) => some ([i], vidx)
    | none => (findDeclaring scopes name rest).map (fun p => (i :: p.1, p.2))

/-- search_upvalue_var from state.rs. An upvalue of the current scope with
the same name is reused. Otherwise the first loop walks the non-Block scopes
outward collecting them into scopes_to_close until the declaring scope is
found (inclusive: the declaring scope is pushed before the break), and
close_variable yields the initial upvalue. The second loop then walks
scopes_to_close in reverse (so the declaring scope itself comes first, at
enumeration index 0, despite the comment in the source that claims it is
skipped) and every visited scope synthesizes and records an enclosed upvalue
chained to the previous upvalue_index, with is_local true exactly at
enumeration index 0. None models the unwrap panic on an undeclared name and
the current_scope panic on an empty scope stack. -/
def GeneratorState.search_upvalue_var (st : GeneratorState) (name : String) :
    Option (Upvalue × GeneratorState) :=
  match st.current_scope with
  | none => none
  | some cur =>
    match cur.upvalues.find? (fun u => u.name = name) with
    | some existing_upvalue => some (existing_upvalue, st)
    | none =>
      match findDeclaring st.scopes name (revNonBlockIdxs st.scopes) with
      | none => none
      | some (visited, vidx) =>
        let declaring := visited.getLastD 0
        let first := (getScope st.scopes declaring).close_variable vidx
        let result :=
          (visited.reverse.enum).foldl
            (fun (acc : Upvalue × List Scope) (p : Nat × Nat) =>
              let sc := getScope acc.2 p.2
              let r := sc.make_enclosed_upvalue acc.1.upvalue_index (decide (p.1 = 0)) name
              (r.1, acc.2.set p.2 r.2))
            (first, st.scopes)
        some (result.1, { st with scopes := result.2 })

/-! ## Bytecode generator (crates/bytecode/src/lib.rs and expr/mod.rs) -/

/-- BytecodeGenerator from crates/bytecode/src/lib.rs: resolver state plus
the function list, created with GeneratorState::default() and the main
function holding an empty chunk. -/
structure BytecodeGenerator where
  state : GeneratorState
  functions : List Function
deriving DecidableEq, Repr

/-- BytecodeGenerator::new with the reserved main function name. -/
def BytecodeGenerator.new : BytecodeGenerator :=
  { state := GeneratorState.default,
    functions := [{ name := "main", arity := 0, chunk := { opcodes := [], constants := [] } }] }

/-- The chunk of the last function: current_chunk uses last_mut().unwrap(),
hence Option on an empty function list. -/
def BytecodeGenerator.current_chunk (g : BytecodeGenerator) : Option Chunk :=
  (g.functions.getLast?).map (fun f => f.chunk)

/-- write_opcode appends the opcode to the current chunk and returns the
position it was written at. -/
def BytecodeGenerator.write_opcode (g : BytecodeGenerator) (op : Opcode) :
    Option (BytecodeGenerator × Nat) :=
  match g.functions.getLast? with
  | none => none
  | some f =>
    some
      ({ g with
          functions := g.functions.dropLast ++
            [{ f with chunk := { f.chunk with opcodes := f.chunk.opcodes ++ [op] } }] },
        f.chunk.opcodes.length)

/-- Write a whole sequence of opcodes in order. -/
def BytecodeGenerator.writeOps (g : BytecodeGenerator) : List Opcode → Option BytecodeGenerator
  | [] => some g
  | op :: rest =>
    match g.write_opcode op with
    | none => none
    | some (g1, _) => g1.writeOps rest

/-- Replace the distance payload of a jump opcode; any other opcode is left
unchanged. -/
def withDistance (op : Opcode) (d : Int) : Opcode :=
  match op with
  | Opcode.Jif _ => Opcode.Jif d
  | Opcode.Jp _ => Opcode.Jp d
  | Opcode.Break _ => Opcode.Break d
  | other => other

/-- Modelled from the spec: emit_patch is declared in the missing part of the
bytecode crate; per the jump patch protocol it writes the placeholder jump
into the chunk and returns a Patch recording the index it was written at.
The unit test it_patches_opcodes runs emit_patch on a fresh generator whose
scope stack is empty (GeneratorState::default) without panicking, so the
patch is not registered through current_scope_mut here. -/
def BytecodeGenerator.emit_patch (g : BytecodeGenerator) (op : Opcode) :
    Option (Patch × BytecodeGenerator) :=
  (g.write_opcode op).map (fun r => ({ index := r.2 }, r.1))

/-- Modelled from the spec and the unit test it_patches_opcodes: patch
resolves the placeholder at the recorded index by writing the number of
opcodes emitted after the placeholder, that is current chunk length minus the
patch index minus one (the test emits the placeholder at index 0, two more
opcodes, and expects the resolved distance 2 out of chunk length 3). -/
def BytecodeGenerator.patch (g : BytecodeGenerator) (p : Patch) : Option BytecodeGenerator :=
  match g.functions.getLast? with
  | none => none
  | some f =>
    match f.chunk.opcodes.get? p.index with
    | none => none
    | some op =>
      let distance : Int := ((f.chunk.opcodes.length - p.index - 1 : Nat) : Int)
      some
        { g with
          functions := g.functions.dropLast ++
            [{ f with chunk :=
                { f.chunk with opcodes := f.chunk.opcodes.set p.index (withDistance op distance) } }] }

/-! ## Helper lemmas -/

/-- A fixed empty global table used for concrete executions; no claim below
depends on the contents of the standard library. -/
def stdEmpty : StdTable := fun _ => none

theorem pop_operand_concat (s : VMState) (l : List RuntimeValue) (v : RuntimeValue)
    (h : s.operands = l ++ [v]) :
    s.pop_operand = (Except.ok v, { s with operands := l }) := by
  simp [VMState.pop_operand, h]

theorem op_pop_of_le (n : Nat) (s : VMState) (h : n ≤ s.operands.length) :
    s.op_pop n = (Except.ok (), { s with operands := s.operands.take (s.operands.length - n) }) := by
  induction n generalizing s with
  | zero => simp [VMState.op_pop]
  | succ n ih =>
    rcases List.eq_nil_or_concat s.operands with h0 | ⟨l, v, hlv⟩
    · rw [h0] at h
      simp at h
    · rw [List.concat_eq_append] at hlv
      have hlen : n ≤ l.length := by
        rw [hlv] at h
        simp at h
        omega
      have hstep : s.op_pop (n + 1) = ({ s with operands := l }).op_pop n := by
        simp [VMState.op_pop, pop_operand_concat s l v hlv, vbind]
      rw [hstep, ih _ (by simpa using hlen), hlv]
      have h1 : (l ++ [v]).length - (n + 1) = l.length - n := by
        simp
      rw [h1, List.take_append_of_le_length (by omega)]

/-! ## C10 -/

/-- C10: dispatching Pop(n), hence op_pop, on an operand stack holding fewer
than n values pops every available value one at a time and then returns the
runtime error for popping an empty stack; the error path is not atomic, the
operands already popped are not restored, so the stack is left empty. -/
theorem op_pop_underflow (s : VMState) (n : Nat) (h : s.operands.length < n) :
    s.op_pop n =
      (Except.error (VmFault.err RuntimeErrorCause.PoppedFromEmptyStack),
        { s with operands := [] }) := by
  induction n generalizing s with
  | zero => exact absurd h (Nat.not_lt_zero _)
  | succ n ih =>
    rcases List.eq_nil_or_concat s.operands with h0 | ⟨l, v, hlv⟩
    · cases s with
    | mk ops cs ip =>
      simp only at h0
      subst h0
      simp [VMState.op_pop, VMState.pop_operand, vbind]
    · rw [List.concat_eq_append] at hlv
      have hstep : s.op_pop (n + 1) = ({ s with operands := l }).op_pop n := by
        simp [VMState.op_pop, pop_operand_concat s l v hlv, vbind]
      have hlen : l.length < n := by
        rw [hlv] at h
        simp at h
        omega
      rw [hstep, ih _ (by simpa using hlen)]

/-- Witness for C10 at a concrete input: Pop(3) on a stack of two values
empties the stack and reports the empty-stack runtime error. -/
theorem op_pop_underflow_witness :
    VMState.op_pop ⟨[RuntimeValue.Null, RuntimeValue.Bool true], [], 0⟩ 3 =
      (Except.error (VmFault.err RuntimeErrorCause.PoppedFromEmptyStack), ⟨[], [], 0⟩) :=
  op_pop_underflow ⟨[RuntimeValue.Null, RuntimeValue.Bool true], [], 0⟩ 3 (by decide)

/-! ## C8 -/

/-- C8: move_pointer with a negative distance whose magnitude exceeds the
instruction pointer returns the StackOverflow runtime error and leaves the
state (so the pointer) unchanged; in every other case, including every
non-negative distance, it succeeds and sets the pointer to ip plus the
distance. -/
theorem move_pointer_spec (s : VMState) (d : Int) :
    (d < 0 → s.ip < (-d).toNat →
      s.move_pointer d = (Except.error (VmFault.err RuntimeErrorCause.StackOverflow), s)) ∧
    (0 ≤ (s.ip : Int) + d →
      s.move_pointer d = (Except.ok (), { s with ip := ((s.ip : Int) + d).toNat })) := by
  constructor
  · intro hd hip
    have h1 : ¬ 0 < d := by omega
    have h2 : ¬ ((-d).toNat ≤ s.ip) := by omega
    simp [VMState.move_pointer, h1, h2]
  · intro hnn
    by_cases h1 : 0 < d
    · simp only [VMState.move_pointer, if_pos h1]
      have : s.ip + d.toNat = ((s.ip : Int) + d).toNat := by omega
      rw [this]
    · have h2 : (-d).toNat ≤ s.ip := by omega
      simp only [VMState.move_pointer, if_neg h1, if_pos h2]
      have : s.ip - (-d).toNat = ((s.ip : Int) + d).toNat := by omega
      rw [this]

/-- Witness for C8 at concrete inputs: moving by -7 from pointer 5 is the
StackOverflow error with the state unchanged, and moving by -3 from pointer 5
succeeds and lands on 2. -/
theorem move_pointer_spec_witness :
    VMState.move_pointer ⟨[], [], 5⟩ (-7) =
        (Except.error (VmFault.err RuntimeErrorCause.StackOverflow), ⟨[], [], 5⟩) ∧
      VMState.move_pointer ⟨[], [], 5⟩ (-3) = (Except.ok (), ⟨[], [], 2⟩) :=
  ⟨(move_pointer_spec ⟨[], [], 5⟩ (-7)).1 (by decide) (by decide),
   (move_pointer_spec ⟨[], [], 5⟩ (-3)).2 (by decide)⟩

/-! ## C1 -/

/-- C1 counterexample: a state whose next opcode is Jif(2) with Bool false on
the operand stack. The claim predicts the pointer advances by exactly the
distance, landing on 0 + 2 = 2; the code moves by the distance and then falls
through to the default move_pointer(1) at the end of tick, landing on 3. -/
theorem jif_counterexample :
    VMState.tick
        ⟨[RuntimeValue.Bool false],
          [⟨0, "main", ⟨[Opcode.Jif 2, Opcode.Null, Opcode.Null, Opcode.Null], []⟩, 0⟩], 0⟩
        stdEmpty =
      (Except.ok TickOutcome.ContinueExecution,
        ⟨[], [⟨0, "main", ⟨[Opcode.Jif 2, Opcode.Null, Opcode.Null, Opcode.Null], []⟩, 0⟩], 3⟩) ∧
    (3 : Nat) ≠ 0 + 2 :=
  ⟨rfl, by decide⟩

/-- C1 (amended): executing one tick on a state whose next opcode is
Jif(distance) pops a Bool operand; when the popped value is false the pointer
advances by distance plus the default increment 1 (the conditional jump does
not skip the final move_pointer(1) of tick, unlike Jp); when it is true the
pointer advances by the default 1. -/
theorem jif_advance (std : StdTable) (s : VMState) (frame : CallFrame) (d : Int) (b : Bool)
    (l : List RuntimeValue)
    (hf : s.call_stack.getLast? = some frame)
    (hop : frame.chunk.opcodes.get? s.ip = some (Opcode.Jif d))
    (hv : s.operands = l ++ [RuntimeValue.Bool b]) :
    (b = false → 0 ≤ (s.ip : Int) + d →
      s.tick std = (Except.ok TickOutcome.ContinueExecution,
        { operands := l, call_stack := s.call_stack, ip := ((s.ip : Int) + d + 1).toNat })) ∧
    (b = true →
      s.tick std = (Except.ok TickOutcome.ContinueExecution,
        { operands := l, call_stack := s.call_stack, ip := s.ip + 1 })) := by
  have hlt : s.ip < frame.chunk.opcodes.length := by
    rcases List.get?_eq_some.mp hop with ⟨hh, _⟩
    exact hh
  have hpop := pop_operand_concat s l (RuntimeValue.Bool b) hv
  constructor
  · rintro rfl hd
    have hmv := (move_pointer_spec { s with operands := l } d).2 (by simpa using hd)
    have hmv2 := (move_pointer_spec { s with operands := l, ip := ((s.ip : Int) + d).toNat } 1).2
      (by omega)
    simp only [VMState.tick, VMState.current_frame, hf, Chunk.opcodes_len, hlt, if_true, hop,
      VMState.dispatch, thenAdvance, vbind, hpop, to_bool, Bool.false_eq_true, if_false,
      hmv, hmv2]
    simp only [Prod.mk.injEq, VMState.mk.injEq, true_and]
    omega
  · rintro rfl
    have hmv2 := (move_pointer_spec { s with operands := l } 1).2 (by omega)
    simp only [VMState.tick, VMState.current_frame, hf, Chunk.opcodes_len, hlt, if_true, hop,
      VMState.dispatch, thenAdvance, vbind, hpop, to_bool, if_true, hmv2]
    simp only [Prod.mk.injEq, VMState.mk.injEq, true_and]
    omega

/-- Witness for the amended C1 at a concrete input: Jif(2) on a false operand
lands on 3 = 0 + 2 + 1, and on a true operand lands on 1. -/
theorem jif_advance_witness :
    VMState.tick
        ⟨[RuntimeValue.Bool false],
          [⟨0, "m", ⟨[Opcode.Jif 2, Opcode.Null, Opcode.Null], []⟩, 0⟩], 0⟩ stdEmpty =
      (Except.ok TickOutcome.ContinueExecution,
        ⟨[], [⟨0, "m", ⟨[Opcode.Jif 2, Opcode.Null, Opcode.Null], []⟩, 0⟩], 3⟩) ∧
    VMState.tick
        ⟨[RuntimeValue.Bool true],
          [⟨0, "m", ⟨[Opcode.Jif 2, Opcode.Null, Opcode.Null], []⟩, 0⟩], 0⟩ stdEmpty =
      (Except.ok TickOutcome.ContinueExecution,
        ⟨[], [⟨0, "m", ⟨[Opcode.Jif 2, Opcode.Null, Opcode.Null], []⟩, 0⟩], 1⟩) :=
  ⟨(jif_advance stdEmpty
      ⟨[RuntimeValue.Bool false], [⟨0, "m", ⟨[Opcode.Jif 2, Opcode.Null, Opcode.Null], []⟩, 0⟩], 0⟩
      ⟨0, "m", ⟨[Opcode.Jif 2, Opcode.Null, Opcode.Null], []⟩, 0⟩ 2 false [] rfl rfl rfl).1
      rfl (by decide),
   (jif_advance stdEmpty
      ⟨[RuntimeValue.Bool true], [⟨0, "m", ⟨[Opcode.Jif 2, Opcode.Null, Opcode.Null], []⟩, 0⟩], 0⟩
      ⟨0, "m", ⟨[Opcode.Jif 2, Opcode.Null, Opcode.Null], []⟩, 0⟩ 2 true [] rfl rfl rfl).2 rfl⟩

/-! ## C9 -/

/-- C9: executing Constant(x), Constant(y), Constant(z), Block(2) from an
empty operand stack leaves exactly the single operand z; and in general a
tick dispatching Block(n) saves the top value, drops n slots beneath it and
restores the saved value, advancing the pointer by 1. -/
theorem block_result_preservation :
    (∀ (std : StdTable) (x y z : Constant),
      runLoop std 5
          ⟨[],
            [⟨0, "main",
              ⟨[Opcode.Constant 0, Opcode.Constant 1, Opcode.Constant 2, Opcode.Block 2],
                [x, y, z]⟩, 0⟩], 0⟩ =
        some (Except.ok (),
          ⟨[z.toRuntime],
            [⟨0, "main",
              ⟨[Opcode.Constant 0, Opcode.Constant 1, Opcode.Constant 2, Opcode.Block 2],
                [x, y, z]⟩, 0⟩], 4⟩)) ∧
    (∀ (std : StdTable) (s : VMState) (frame : CallFrame) (n : Nat) (v : RuntimeValue)
      (l : List RuntimeValue),
      s.call_stack.getLast? = some frame →
      frame.chunk.opcodes.get? s.ip = some (Opcode.Block n) →
      s.operands = l ++ [v] →
      n ≤ l.length →
      s.tick std = (Except.ok TickOutcome.ContinueExecution,
        { operands := l.take (l.length - n) ++ [v], call_stack := s.call_stack,
          ip := s.ip + 1 })) := by
  constructor
  · intro std x y z
    rfl
  · intro std s frame n v l hf hop hv hn
    have hlt : s.ip < frame.chunk.opcodes.length := by
      rcases List.get?_eq_some.mp hop with ⟨hh, _⟩
      exact hh
    have hpop := pop_operand_concat s l v hv
    have hdrop := op_pop_of_le n { s with operands := l } (by simpa using hn)
    have hmv := (move_pointer_spec
      { s with operands := l.take (l.length - n) ++ [v] } 1).2 (by omega)
    simp only [VMState.tick, VMState.current_frame, hf, Chunk.opcodes_len, hlt, if_true, hop,
      VMState.dispatch, thenAdvance, vbind, hpop, hdrop, VMState.push_operand, hmv]
    simp only [Prod.mk.injEq, VMState.mk.injEq, true_and]
    omega

/-- Witness for C9 at concrete inputs: the four-opcode program with the
constants 1, 2, 3 finishes with exactly the operand 3 on the stack, and a
direct Block(2) tick on the stack [x, y, z] keeps only z. -/
theorem block_result_preservation_witness :
    runLoop stdEmpty 5
        ⟨[],
          [⟨0, "main",
            ⟨[Opcode.Constant 0, Opcode.Constant 1, Opcode.Constant 2, Opcode.Block 2],
              [Constant.Number 1, Constant.Number 2, Constant.Number 3]⟩, 0⟩], 0⟩ =
      some (Except.ok (),
        ⟨[RuntimeValue.Number 3],
          [⟨0, "main",
            ⟨[Opcode.Constant 0, Opcode.Constant 1, Opcode.Constant 2, Opcode.Block 2],
              [Constant.Number 1, Constant.Number 2, Constant.Number 3]⟩, 0⟩], 4⟩) ∧
    VMState.tick
        ⟨[RuntimeValue.Number 1, RuntimeValue.Number 2, RuntimeValue.Number 3],
          [⟨0, "b", ⟨[Opcode.Block 2], []⟩, 0⟩], 0⟩ stdEmpty =
      (Except.ok TickOutcome.ContinueExecution,
        ⟨[RuntimeValue.Number 3], [⟨0, "b", ⟨[Opcode.Block 2], []⟩, 0⟩], 1⟩) :=
  ⟨block_result_preservation.1 stdEmpty (Constant.Number 1) (Constant.Number 2)
      (Constant.Number 3),
   block_result_preservation.2 stdEmpty
      ⟨[RuntimeValue.Number 1, RuntimeValue.Number 2, RuntimeValue.Number 3],
        [⟨0, "b", ⟨[Opcode.Block 2], []⟩, 0⟩], 0⟩
      ⟨0, "b", ⟨[Opcode.Block 2], []⟩, 0⟩ 2 (RuntimeValue.Number 3)
      [RuntimeValue.Number 1, RuntimeValue.Number 2] rfl rfl rfl (by decide)⟩

/-! ## C6 -/

/-- C6 counterexample: op_get on an operand stack topped by an Upvalue
address hits the unimplemented arm and panics instead of resolving the
address against the closure environment and pushing the resolved value as
the claim states. -/
theorem op_get_upvalue_counterexample :
    VMState.op_get
        ⟨[RuntimeValue.MemoryAddress (MemoryAddress.Upvalue 0 true)],
          [⟨0, "main", ⟨[], []⟩, 0⟩], 0⟩ stdEmpty =
      (Except.error VmFault.crash, ⟨[], [⟨0, "main", ⟨[], []⟩, 0⟩], 0⟩) ∧
    (Except.error VmFault.crash : Except VmFault Unit) ≠ Except.ok () :=
  ⟨rfl, fun h => Except.noConfusion h⟩

/-- C6 (amended): Get and Asg pop a MemoryAddress operand; Get resolves the
Local form against the current frame stack_start (a missing slot is a
StackOverflow runtime error) and the Global form against the externally
supplied builtin table (an undefined global is a panic), pushing the resolved
value; Asg pops one more value and overwrites the addressed slot for the
Local form only (an out-of-range slot is a panic). The Upvalue form of both
and the Global form of Asg hit unimplemented arms and panic instead of being
resolved. -/
theorem get_asg_address_forms (std : StdTable) :
    (∀ (rest : List RuntimeValue) (cs : List CallFrame) (ip : Nat) (frame : CallFrame)
      (a : Nat) (v : RuntimeValue),
      cs.getLast? = some frame →
      rest.get? (frame.stack_start + a) = some v →
      VMState.op_get ⟨rest ++ [RuntimeValue.MemoryAddress (MemoryAddress.Local a)], cs, ip⟩ std =
        (Except.ok (), ⟨rest ++ [v], cs, ip⟩)) ∧
    (∀ (rest : List RuntimeValue) (cs : List CallFrame) (ip : Nat) (frame : CallFrame) (a : Nat),
      cs.getLast? = some frame →
      rest.get? (frame.stack_start + a) = none →
      VMState.op_get ⟨rest ++ [RuntimeValue.MemoryAddress (MemoryAddress.Local a)], cs, ip⟩ std =
        (Except.error (VmFault.err RuntimeErrorCause.StackOverflow), ⟨rest, cs, ip⟩)) ∧
    (∀ (rest : List RuntimeValue) (cs : List CallFrame) (ip : Nat) (name : String)
      (v : RuntimeValue),
      std name = some v →
      VMState.op_get ⟨rest ++ [RuntimeValue.MemoryAddress (MemoryAddress.Global name)], cs, ip⟩ std =
        (Except.ok (), ⟨rest ++ [v], cs, ip⟩)) ∧
    (∀ (rest : List RuntimeValue) (cs : List CallFrame) (ip : Nat) (name : String),
      std name = none →
      VMState.op_get ⟨rest ++ [RuntimeValue.MemoryAddress (MemoryAddress.Global name)], cs, ip⟩ std =
        (Except.error VmFault.crash, ⟨rest, cs, ip⟩)) ∧
    (∀ (rest : List RuntimeValue) (cs : List CallFrame) (ip : Nat) (i : Nat) (r : Bool),
      VMState.op_get ⟨rest ++ [RuntimeValue.MemoryAddress (MemoryAddress.Upvalue i r)], cs, ip⟩ std =
        (Except.error VmFault.crash, ⟨rest, cs, ip⟩)) ∧
    (∀ (rest : List RuntimeValue) (cs : List CallFrame) (ip : Nat) (frame : CallFrame)
      (a : Nat) (v : RuntimeValue),
      cs.getLast? = some frame →
      frame.stack_start + a < rest.length →
      VMState.op_asg
          ⟨rest ++ [RuntimeValue.MemoryAddress (MemoryAddress.Local a), v], cs, ip⟩ =
        (Except.ok (), ⟨rest.set (frame.stack_start + a) v, cs, ip⟩)) ∧
    (∀ (rest : List RuntimeValue) (cs : List CallFrame) (ip : Nat) (frame : CallFrame)
      (a : Nat) (v : RuntimeValue),
      cs.getLast? = some frame →
      rest.length ≤ frame.stack_start + a →
      VMState.op_asg
          ⟨rest ++ [RuntimeValue.MemoryAddress (MemoryAddress.Local a), v], cs, ip⟩ =
        (Except.error VmFault.crash, ⟨rest, cs, ip⟩)) ∧
    (∀ (rest : List RuntimeValue) (cs : List CallFrame) (ip : Nat) (frame : CallFrame)
      (i : Nat) (r : Bool) (v : RuntimeValue),
      cs.getLast? = some frame →
      VMState.op_asg
          ⟨rest ++ [RuntimeValue.MemoryAddress (MemoryAddress.Upvalue i r), v], cs, ip⟩ =
        (Except.error VmFault.crash, ⟨rest, cs, ip⟩)) ∧
    (∀ (rest : List RuntimeValue) (cs : List CallFrame) (ip : Nat) (frame : CallFrame)
      (name : String) (v : RuntimeValue),
      cs.getLast? = some frame →
      VMState.op_asg
          ⟨rest ++ [RuntimeValue.MemoryAddress (MemoryAddress.Global name), v], cs, ip⟩ =
        (Except.error VmFault.crash, ⟨rest, cs, ip⟩)) := by
  refine ⟨?_, ?_, ?_, ?_, ?_, ?_, ?_, ?_, ?_⟩
  · intro rest cs ip frame a v hf hv
    have hv2 : rest[frame.stack_start + a]? = some v := by simpa using hv
    simp [VMState.op_get, VMState.pop_address, vbind, VMState.pop_operand,
      VMState.get_local_variable, VMState.current_frame, hf, hv2, VMState.push_operand]
  · intro rest cs ip frame a hf hv
    have hv2 : rest[frame.stack_start + a]? = none := by simpa using hv
    simp [VMState.op_get, VMState.pop_address, vbind, VMState.pop_operand,
      VMState.get_local_variable, VMState.current_frame, hf, hv2]
  · intro rest cs ip name v hstd
    simp [VMState.op_get, VMState.pop_address, vbind, VMState.pop_operand,
      VMState.get_global_variable, hstd, VMState.push_operand]
  · intro rest cs ip name hstd
    simp [VMState.op_get, VMState.pop_address, vbind, VMState.pop_operand,
      VMState.get_global_variable, hstd]
  · intro rest cs ip i r
    simp [VMState.op_get, VMState.pop_address, vbind, VMState.pop_operand]
  · intro rest cs ip frame a v hf hlt
    have hsplit :
        rest ++ [RuntimeValue.MemoryAddress (MemoryAddress.Local a), v] =
          (rest ++ [RuntimeValue.MemoryAddress (MemoryAddress.Local a)]) ++ [v] := by
      simp
    rw [hsplit]
    simp [VMState.op_asg, VMState.pop_address, vbind, VMState.pop_operand,
      VMState.assign_value, VMState.current_frame, hf, hlt]
  · intro rest cs ip frame a v hf hge
    have hsplit :
        rest ++ [RuntimeValue.MemoryAddress (MemoryAddress.Local a), v] =
          (rest ++ [RuntimeValue.MemoryAddress (MemoryAddress.Local a)]) ++ [v] := by
      simp
    rw [hsplit]
    simp [VMState.op_asg, VMState.pop_address, vbind, VMState.pop_operand,
      VMState.assign_value, VMState.current_frame, hf, Nat.not_lt.mpr hge]
  · intro rest cs ip frame i r v hf
    have hsplit :
        rest ++ [RuntimeValue.MemoryAddress (MemoryAddress.Upvalue i r), v] =
          (rest ++ [RuntimeValue.MemoryAddress (MemoryAddress.Upvalue i r)]) ++ [v] := by
      simp
    rw [hsplit]
    simp [VMState.op_asg, VMState.pop_address, vbind, VMState.pop_operand,
      VMState.assign_value, VMState.current_frame, hf]
  · intro rest cs ip frame name v hf
    have hsplit :
        rest ++ [RuntimeValue.MemoryAddress (MemoryAddress.Global name), v] =
          (rest ++ [RuntimeValue.MemoryAddress (MemoryAddress.Global name)]) ++ [v] := by
      simp
    rw [hsplit]
    simp [VMState.op_asg, VMState.pop_address, vbind, VMState.pop_operand,
      VMState.assign_value, VMState.current_frame, hf]

/-- Witness for the amended C6 at concrete inputs: a Get on Local(0) reads
back the slot, an Asg on Local(0) overwrites it, and a Get on an Upvalue
address panics. -/
theorem get_asg_address_forms_witness :
    VMState.op_get
        ⟨[RuntimeValue.Number 127, RuntimeValue.MemoryAddress (MemoryAddress.Local 0)],
          [⟨0, "m", ⟨[], []⟩, 0⟩], 0⟩ stdEmpty =
      (Except.ok (),
        ⟨[RuntimeValue.Number 127, RuntimeValue.Number 127], [⟨0, "m", ⟨[], []⟩, 0⟩], 0⟩) ∧
    VMState.op_asg
        ⟨[RuntimeValue.Number 127, RuntimeValue.MemoryAddress (MemoryAddress.Local 0),
            RuntimeValue.Number 7],
          [⟨0, "m", ⟨[], []⟩, 0⟩], 0⟩ =
      (Except.ok (), ⟨[RuntimeValue.Number 7], [⟨0, "m", ⟨[], []⟩, 0⟩], 0⟩) ∧
    VMState.op_get
        ⟨[RuntimeValue.MemoryAddress (MemoryAddress.Upvalue 1 false)],
          [⟨0, "m", ⟨[], []⟩, 0⟩], 0⟩ stdEmpty =
      (Except.error VmFault.crash, ⟨[], [⟨0, "m", ⟨[], []⟩, 0⟩], 0⟩) :=
  ⟨(get_asg_address_forms stdEmpty).1 [RuntimeValue.Number 127] [⟨0, "m", ⟨[], []⟩, 0⟩] 0
      ⟨0, "m", ⟨[], []⟩, 0⟩ 0 (RuntimeValue.Number 127) rfl rfl,
   (get_asg_address_forms stdEmpty).2.2.2.2.2.1 [RuntimeValue.Number 127]
      [⟨0, "m", ⟨[], []⟩, 0⟩] 0 ⟨0, "m", ⟨[], []⟩, 0⟩ 0 (RuntimeValue.Number 7) rfl
      (by decide),
   (get_asg_address_forms stdEmpty).2.2.2.2.1 [] [⟨0, "m", ⟨[], []⟩, 0⟩] 0 1 false⟩

/-! ## C7 -/

/-- C7 counterexample: the top-level function whose chunk is the single
opcode Jp(-1) hits the pointer-underflow runtime error on its first tick.
The crate-internal VM::run duly returns the structured StackOverflow error,
but the public run entry point unwraps it with expect, so the embedder
observes a panic (none) rather than receiving the error as the claim
states. -/
theorem pub_run_crash_counterexample :
    VM_run stdEmpty 3 ⟨"main", 0, ⟨[Opcode.Jp (-1)], []⟩⟩ =
        some (Except.error (VmFault.err RuntimeErrorCause.StackOverflow)) ∧
      pub_run stdEmpty 3 ⟨"main", 0, ⟨[Opcode.Jp (-1)], []⟩⟩ = some none ∧
      (some (none : Option RuntimeValue) ≠
        some (some (RuntimeValue.Null) : Option RuntimeValue)) :=
  ⟨rfl, rfl, by simp⟩

/-- C7 (amended): the crate-internal VM::run satisfies the embedding
contract, yielding either a terminal value or the first structured runtime
fault (the run loop stops at the very first faulting tick); the public run
entry point forwards a terminal value but panics on the error outcome
instead of returning it to the embedder. -/
theorem run_outcome_contract :
    (∀ (std : StdTable) (fuel : Nat) (f : Function) (v : RuntimeValue),
      VM_run std fuel f = some (Except.ok v) → pub_run std fuel f = some (some v)) ∧
    (∀ (std : StdTable) (fuel : Nat) (f : Function) (e : VmFault),
      VM_run std fuel f = some (Except.error e) → pub_run std fuel f = some none) ∧
    (∀ (std : StdTable) (fuel : Nat) (s s1 : VMState) (e : VmFault),
      s.tick std = (Except.error e, s1) →
      runLoop std (fuel + 1) s = some (Except.error e, s1)) := by
  refine ⟨?_, ?_, ?_⟩
  · intro std fuel f v h
    simp [pub_run, h]
  · intro std fuel f e h
    simp [pub_run, h]
  · intro std fuel s s1 e h
    simp [runLoop, h]

/-- Witness for the amended C7 at concrete inputs: the Jp(-1) program's
StackOverflow outcome makes the public entry point panic, and a faulting tick
ends the run loop at once. -/
theorem run_outcome_contract_witness :
    pub_run stdEmpty 3 ⟨"main", 0, ⟨[Opcode.Jp (-1)], []⟩⟩ = some none ∧
    runLoop stdEmpty 3 ⟨[], [⟨0, "main", ⟨[Opcode.Jp (-1)], []⟩, 0⟩], 0⟩ =
      some (Except.error (VmFault.err RuntimeErrorCause.StackOverflow),
        ⟨[], [⟨0, "main", ⟨[Opcode.Jp (-1)], []⟩, 0⟩], 0⟩) :=
  ⟨run_outcome_contract.2.1 stdEmpty 3 ⟨"main", 0, ⟨[Opcode.Jp (-1)], []⟩⟩
      (VmFault.err RuntimeErrorCause.StackOverflow) rfl,
   run_outcome_contract.2.2 stdEmpty 2
      ⟨[], [⟨0, "main", ⟨[Opcode.Jp (-1)], []⟩, 0⟩], 0⟩
      ⟨[], [⟨0, "main", ⟨[Opcode.Jp (-1)], []⟩, 0⟩], 0⟩
      (VmFault.err RuntimeErrorCause.StackOverflow) rfl⟩

/-! ## Generator helper lemmas -/

theorem write_opcode_spec (g : BytecodeGenerator) (f : Function) (op : Opcode)
    (hf : g.functions.getLast? = some f) :
    g.write_opcode op = some
      ({ g with functions := g.functions.dropLast ++
          [{ f with chunk := { f.chunk with opcodes := f.chunk.opcodes ++ [op] } }] },
        f.chunk.opcodes.length) := by
  simp [BytecodeGenerator.write_opcode, hf]

theorem writeOps_spec (ops : List Opcode) (g : BytecodeGenerator) (f : Function)
    (hf : g.functions.getLast? = some f) :
    g.writeOps ops = some
      { g with functions := g.functions.dropLast ++
          [{ f with chunk := { f.chunk with opcodes := f.chunk.opcodes ++ ops } }] } := by
  induction ops generalizing g f with
  | nil =>
    have h2 : g.functions.dropLast ++ [f] = g.functions :=
      List.dropLast_append_getLast? f hf
    simp only [BytecodeGenerator.writeOps, List.append_nil]
    rw [show ({ f with chunk := { f.chunk with opcodes := f.chunk.opcodes } } : Function) = f
        from rfl]
    rw [h2]
  | cons op rest ih =>
    have hw := write_opcode_spec g f op hf
    have hf1 :
        ({ g with functions := g.functions.dropLast ++
            [{ f with chunk := { f.chunk with opcodes := f.chunk.opcodes ++ [op] } }] }
          : BytecodeGenerator).functions.getLast? =
          some { f with chunk := { f.chunk with opcodes := f.chunk.opcodes ++ [op] } } := by
      simp [List.getLast?_concat]
    simp only [BytecodeGenerator.writeOps, hw]
    rw [ih _ _ hf1]
    simp [List.dropLast_concat]

theorem writeOps_exists (ops : List Opcode) (g : BytecodeGenerator) (f : Function)
    (hf : g.functions.getLast? = some f) :
    ∃ g2, g.writeOps ops = some g2 ∧ g2.state = g.state ∧
      g2.functions = g.functions.dropLast ++
        [{ f with chunk := { f.chunk with opcodes := f.chunk.opcodes ++ ops } }] :=
  ⟨_, writeOps_spec ops g f hf, rfl, rfl⟩

theorem patch_spec (g : BytecodeGenerator) (f : Function) (p : Patch) (op : Opcode)
    (hf : g.functions.getLast? = some f)
    (hop : f.chunk.opcodes.get? p.index = some op) :
    ∃ g3, g.patch p = some g3 ∧
      g3.functions = g.functions.dropLast ++
        [{ f with chunk := { f.chunk with
            opcodes := f.chunk.opcodes.set p.index
              (withDistance op ((f.chunk.opcodes.length - p.index - 1 : Nat) : Int)) } }] := by
  simp only [BytecodeGenerator.patch, hf, hop]
  exact ⟨_, rfl, rfl⟩

theorem current_chunk_of_functions (g : BytecodeGenerator) (init : List Function)
    (f : Function) (h : g.functions = init ++ [f]) :
    g.current_chunk = some f.chunk := by
  simp [BytecodeGenerator.current_chunk, h, List.getLast?_concat]

/-! ## C3 -/

/-- C3: a placeholder jump recorded by emit_patch lands at the index equal to
the chunk length at emission time; after exactly N further opcodes are
emitted, resolving the patch writes the distance N into the jump opcode at
the patch index. -/
theorem patch_distance_spec (g : BytecodeGenerator) (f : Function) (d0 : Int) (jmp : Opcode)
    (ops : List Opcode)
    (hf : g.functions.getLast? = some f)
    (_hj : jmp = Opcode.Jif d0 ∨ jmp = Opcode.Jp d0 ∨ jmp = Opcode.Break d0) :
    ∃ (p : Patch) (g1 g2 g3 : BytecodeGenerator),
      g.emit_patch jmp = some (p, g1) ∧
      p.index = f.chunk.opcodes.length ∧
      g1.writeOps ops = some g2 ∧
      g2.patch p = some g3 ∧
      (g3.current_chunk).map (fun c => c.opcodes.get? p.index) =
        some (some (withDistance jmp (ops.length : Int))) := by
  have hw := write_opcode_spec g f jmp hf
  have hemit : g.emit_patch jmp = some (⟨f.chunk.opcodes.length⟩,
      { g with functions := g.functions.dropLast ++
          [{ f with chunk := { f.chunk with opcodes := f.chunk.opcodes ++ [jmp] } }] }) := by
    simp [BytecodeGenerator.emit_patch, hw]
  have hf1 :
      ({ g with functions := g.functions.dropLast ++
          [{ f with chunk := { f.chunk with opcodes := f.chunk.opcodes ++ [jmp] } }] }
        : BytecodeGenerator).functions.getLast? =
        some { f with chunk := { f.chunk with opcodes := f.chunk.opcodes ++ [jmp] } } := by
    simp [List.getLast?_concat]
  obtain ⟨g2, hwr, hst2, hfn2⟩ := writeOps_exists ops _ _ hf1
  simp only [List.dropLast_concat] at hfn2
  have hf2 : g2.functions.getLast? =
      some { f with chunk := { f.chunk with
        opcodes := (f.chunk.opcodes ++ [jmp]) ++ ops } } := by
    rw [hfn2]
    exact List.getLast?_concat _
  have hop2 : ((f.chunk.opcodes ++ [jmp]) ++ ops).get? f.chunk.opcodes.length = some jmp := by
    rw [List.get?_append (by simp)]
    exact List.get?_concat_length _ _
  obtain ⟨g3, hpatch, hfn3⟩ := patch_spec g2
    { f with chunk := { f.chunk with opcodes := (f.chunk.opcodes ++ [jmp]) ++ ops } }
    ⟨f.chunk.opcodes.length⟩ jmp hf2 hop2
  refine ⟨⟨f.chunk.opcodes.length⟩, _, g2, g3, hemit, rfl, hwr, hpatch, ?_⟩
  have hcc := current_chunk_of_functions g3 _ _ hfn3
  rw [hcc]
  simp only [Option.map_some']
  have hk : f.chunk.opcodes.length < ((f.chunk.opcodes ++ [jmp]) ++ ops).length := by
    simp
  rw [List.get?_set_eq_of_lt _ hk]
  have hd : ((f.chunk.opcodes ++ [jmp]) ++ ops).length - f.chunk.opcodes.length - 1 =
      ops.length := by
    simp
  rw [hd]

/-- Witness for C3 at a concrete input: a fresh generator emits a Jif
placeholder at index 0, two opcodes follow, and the resolved distance is 2. -/
theorem patch_distance_spec_witness :
    ∃ (p : Patch) (g1 g2 g3 : BytecodeGenerator),
      BytecodeGenerator.new.emit_patch (Opcode.Jif 0) = some (p, g1) ∧
      p.index = 0 ∧
      g1.writeOps [Opcode.Null, Opcode.Get] = some g2 ∧
      g2.patch p = some g3 ∧
      (g3.current_chunk).map (fun c => c.opcodes.get? p.index) =
        some (some (withDistance (Opcode.Jif 0) ((2 : Nat) : Int))) :=
  patch_distance_spec BytecodeGenerator.new
    { name := "main", arity := 0, chunk := { opcodes := [], constants := [] } } 0
    (Opcode.Jif 0) [Opcode.Null, Opcode.Get] rfl (Or.inl rfl)

/-! ## C4 -/

/-- C4 counterexample: replaying the unit test it_patches_opcodes, a fresh
generator emits a Jif placeholder at index 0 and writes two further opcodes, so the
chunk length at the moment of resolution is 3; the resolved opcode is
Jif(2), not Jif(3 - 0) as the claimed formula distance = length - index
predicts. -/
theorem patch_formula_counterexample :
    ((BytecodeGenerator.new.emit_patch (Opcode.Jif 0)).bind (fun pg =>
        (pg.2.writeOps [Opcode.Null, Opcode.Get]).bind (fun g2 =>
          (g2.patch pg.1).bind (fun g3 => g3.current_chunk)))) =
      some { opcodes := [Opcode.Jif 2, Opcode.Null, Opcode.Get], constants := [] } ∧
    Opcode.Jif 2 ≠ Opcode.Jif ((3 : Int) - 0) :=
  ⟨rfl, by decide⟩

/-- C4 (amended): when a Patch is resolved, the distance written back into
the opcode payload at the patch index equals (current chunk length) minus
(patch index) minus one, i.e. the number of opcodes emitted after the
placeholder. -/
theorem patch_writes_length_minus_index_minus_one (g : BytecodeGenerator) (f : Function)
    (p : Patch) (op : Opcode)
    (hf : g.functions.getLast? = some f)
    (hop : f.chunk.opcodes.get? p.index = some op) :
    ∃ g3, g.patch p = some g3 ∧
      (g3.current_chunk).map (fun c => c.opcodes.get? p.index) =
        some (some (withDistance op ((f.chunk.opcodes.length - p.index - 1 : Nat) : Int))) := by
  obtain ⟨g3, hpatch, hfn3⟩ := patch_spec g f p op hf hop
  refine ⟨g3, hpatch, ?_⟩
  rw [current_chunk_of_functions g3 _ _ hfn3]
  simp only [Option.map_some']
  have hk : p.index < f.chunk.opcodes.length := by
    rcases List.get?_eq_some.mp hop with ⟨hh, _⟩
    exact hh
  rw [List.get?_set_eq_of_lt _ hk]

/-- Witness for the amended C4 at a concrete input: resolving the
placeholder of the it_patches_opcodes scenario writes distance
3 - 0 - 1 = 2. -/
theorem patch_writes_length_minus_index_minus_one_witness :
    ∃ g3,
      BytecodeGenerator.patch
          ⟨GeneratorState.default,
            [⟨"main", 0, ⟨[Opcode.Jif 0, Opcode.Null, Opcode.Get], []⟩⟩]⟩ ⟨0⟩ = some g3 ∧
      (g3.current_chunk).map (fun c => c.opcodes.get? (0 : Nat)) =
        some (some (withDistance (Opcode.Jif 0) (((3 : Nat) - 0 - 1 : Nat) : Int))) :=
  patch_writes_length_minus_index_minus_one
    ⟨GeneratorState.default, [⟨"main", 0, ⟨[Opcode.Jif 0, Opcode.Null, Opcode.Get], []⟩⟩]⟩
    ⟨"main", 0, ⟨[Opcode.Jif 0, Opcode.Null, Opcode.Get], []⟩⟩ ⟨0⟩ (Opcode.Jif 0) rfl rfl

/-! ## C5 -/

/-- The enclosing-scope sum exactly as the claim words it: walking the
enclosing scopes innermost first, add the variable counts of the Block and
Global scopes and stop at the nearest function boundary (the first scope
that is not Block or Global). -/
def enclosingBlockGlobalSum : List Scope → Nat
  | [] => 0
  | sc :: rest =>
    if sc.scope_type = ScopeType.Block ∨ sc.scope_type = ScopeType.Global then
      sc.vars.length + enclosingBlockGlobalSum rest
    else 0

/-- The stack-index rule as the claim states it: inside a Function scope the
0-based position within that scope's own variable list; otherwise the sum of
the variable counts of the enclosing Block/Global scopes up to the nearest
function boundary plus the position within the current scope. -/
def claimedDeclareIndex (st : GeneratorState) : Option Nat :=
  (st.current_scope).map (fun cur =>
    if cur.scope_type = ScopeType.Function then cur.vars.length
    else enclosingBlockGlobalSum (st.scopes.reverse.drop 1) + cur.vars.length)

theorem takeWhile_sum_eq (l : List Scope) :
    (((l.takeWhile (fun s =>
        decide (s.scope_type = ScopeType.Block) || decide (s.scope_type = ScopeType.Global))).map
      (fun s => s.vars.length)).sum) = enclosingBlockGlobalSum l := by
  induction l with
  | nil => simp [enclosingBlockGlobalSum]
  | cons sc rest ih =>
    by_cases h : sc.scope_type = ScopeType.Block ∨ sc.scope_type = ScopeType.Global
    · rw [List.takeWhile_cons_of_pos (by simpa using h)]
      simp [enclosingBlockGlobalSum, h, ih]
    · rw [List.takeWhile_cons_of_neg (by simpa using h)]
      simp [enclosingBlockGlobalSum, h]

/-- C5: declare_var appends to the current scope exactly one new Variable,
whose stack index is the claimed one: the 0-based position within the scope's
own variable list when the current scope is a Function scope, and otherwise
the sum of the variable counts of the enclosing Block/Global scopes up to the
nearest function boundary plus the position within the current scope. -/
theorem declare_var_index (st : GeneratorState) (name : String) (cur : Scope) (dep : Nat)
    (hcur : st.current_scope = some cur) (hdep : st.depth = some dep) :
    ∃ k, claimedDeclareIndex st = some k ∧
      st.declare_var name = some { st with scopes := st.scopes.dropLast ++
        [{ cur with vars := cur.vars ++ [⟨name, dep, k, none⟩] }] } := by
  refine ⟨if cur.scope_type = ScopeType.Function then cur.vars.length
    else enclosingBlockGlobalSum (st.scopes.reverse.drop 1) + cur.vars.length, ?_, ?_⟩
  · simp [claimedDeclareIndex, hcur]
  · simp only [GeneratorState.declare_var, hdep, hcur]
    by_cases h : cur.scope_type = ScopeType.Function
    · simp [h]
    · simp [h, takeWhile_sum_eq]

/-- Witness for C5 at a concrete input: a Block scope nested through another
Block inside the global scope; the global scope holds two variables and the
intermediate block one, so the new variable's index is 2 + 1 + 0 = 3. -/
theorem declare_var_index_witness :
    ∃ k, claimedDeclareIndex
        ⟨[⟨ScopeType.Global, [⟨"a", 0, 0, none⟩, ⟨"b", 0, 1, none⟩], false, [], 0, []⟩,
          ⟨ScopeType.Block, [⟨"c", 0, 2, none⟩], false, [], 0, []⟩,
          ⟨ScopeType.Block, [], false, [], 0, []⟩]⟩ = some k ∧
      GeneratorState.declare_var
          ⟨[⟨ScopeType.Global, [⟨"a", 0, 0, none⟩, ⟨"b", 0, 1, none⟩], false, [], 0, []⟩,
            ⟨ScopeType.Block, [⟨"c", 0, 2, none⟩], false, [], 0, []⟩,
            ⟨ScopeType.Block, [], false, [], 0, []⟩]⟩ "d" =
        some ⟨[⟨ScopeType.Global, [⟨"a", 0, 0, none⟩, ⟨"b", 0, 1, none⟩], false, [], 0, []⟩,
            ⟨ScopeType.Block, [⟨"c", 0, 2, none⟩], false, [], 0, []⟩,
            ⟨ScopeType.Block, [⟨"d", 0, k, none⟩], false, [], 0, []⟩]⟩ :=
  declare_var_index
    ⟨[⟨ScopeType.Global, [⟨"a", 0, 0, none⟩, ⟨"b", 0, 1, none⟩], false, [], 0, []⟩,
      ⟨ScopeType.Block, [⟨"c", 0, 2, none⟩], false, [], 0, []⟩,
      ⟨ScopeType.Block, [], false, [], 0, []⟩]⟩ "d"
    ⟨ScopeType.Block, [], false, [], 0, []⟩ 0 rfl rfl

/-! ## C2 -/

/-- C2: the concrete failing scope stack: the global scope, a Function scope
F declaring x, and a Function scope G nested directly inside F, so the
nesting distance is K = 1. Resolving x from G should, per the claim, build a
chain of exactly one Upvalue whose single (outermost, directly capturing)
link has is_local = true. The code instead records two upvalues: the first
loop of search_upvalue_var pushes the declaring scope itself into
scopes_to_close before breaking, so the walk back inward starts at F
(enumeration index 0, receiving the is_local = true link) rather than at the
first capturing scope, and G receives is_local = false; the comment in the
source claiming the declaring scope is skipped is contradicted by the
behavior. -/
theorem search_upvalue_var_off_by_one :
    GeneratorState.search_upvalue_var
        ⟨[⟨ScopeType.Global, [], false, [], 0, []⟩,
          ⟨ScopeType.Function, [⟨"x", 1, 0, none⟩], false, [], 0, []⟩,
          ⟨ScopeType.Function, [], false, [], 0, []⟩]⟩ "x" =
      some (⟨0, false, true, 0, "x"⟩,
        ⟨[⟨ScopeType.Global, [], false, [], 0, []⟩,
          ⟨ScopeType.Function, [⟨"x", 1, 0, none⟩], false, [], 0,
            [⟨0, true, true, 0, "x"⟩]⟩,
          ⟨ScopeType.Function, [], false, [], 0, [⟨0, false, true, 0, "x"⟩]⟩]⟩) ∧
    (⟨0, false, true, 0, "x"⟩ : Upvalue).is_local ≠ true :=
  ⟨rfl, by decide⟩

end Vtas
